import Mathlib

/-!
Formal model of the ABalancedTeacher routing engine.

The Python sources `routing_client.py`, `smart_router.py` and `web_ui.py` are
embedded shallowly: queries are lists of characters, Python string operations
(`lower`, `strip`, `split`, substring tests, the five `SIMPLE_PATTERNS`
regexes) are modelled as executable Lean functions, and the session loops of
the three front ends are modelled as pure state-transition functions whose
external effects (the backend calls) are passed in as explicit outcomes.

Unicode caveat: `str.lower` / `str.strip` / `str.isspace` are modelled on
their ASCII behaviour, which is the relevant fragment for every keyword,
pattern and literal appearing in the sources.
-/

namespace ABalancedTeacher

/-- The three model tiers (`'fast'`, `'normal'`, `'strong'` in the sources). -/
inductive Tier
  | fast
  | normal
  | strong
deriving DecidableEq, Repr

/-- Convert a Lean string literal to the character-list representation used
throughout the model. -/
def cs (s : String) : List Char := s.toList

/-- Whitespace as recognised by Python's `str.split` / `str.strip`
(ASCII fragment: space, tab, newline, carriage return, vertical tab,
form feed). -/
def pyIsSpace (c : Char) : Bool :=
  c = ' ' || c = '\t' || c = '\n' || c = '\r' || c = '\x0b' || c = '\x0c'

/-- ASCII case folding of one character, as done by `str.lower`. -/
def pyLowerChar (c : Char) : Char :=
  if c = 'A' then 'a' else if c = 'B' then 'b' else if c = 'C' then 'c'
  else if c = 'D' then 'd' else if c = 'E' then 'e' else if c = 'F' then 'f'
  else if c = 'G' then 'g' else if c = 'H' then 'h' else if c = 'I' then 'i'
  else if c = 'J' then 'j' else if c = 'K' then 'k' else if c = 'L' then 'l'
  else if c = 'M' then 'm' else if c = 'N' then 'n' else if c = 'O' then 'o'
  else if c = 'P' then 'p' else if c = 'Q' then 'q' else if c = 'R' then 'r'
  else if c = 'S' then 's' else if c = 'T' then 't' else if c = 'U' then 'u'
  else if c = 'V' then 'v' else if c = 'W' then 'w' else if c = 'X' then 'x'
  else if c = 'Y' then 'y' else if c = 'Z' then 'z' else c

/-- `str.lower` (ASCII fragment). -/
def pyLower (s : List Char) : List Char := s.map pyLowerChar

/-- Remove trailing whitespace characters (the right half of `str.strip`). -/
def dropTrail : List Char → List Char
  | [] => []
  | c :: r =>
    match dropTrail r with
    | [] => if pyIsSpace c then [] else [c]
    | r' => c :: r'

/-- `str.strip`: remove leading and trailing whitespace. -/
def pyStrip (s : List Char) : List Char :=
  dropTrail (s.dropWhile pyIsSpace)

/-- The text `prompt.lower().strip()` that the classifier's pattern and
keyword stages inspect. -/
def lowerStrip (s : List Char) : List Char := pyStrip (pyLower s)

/-- `len(s.split())`: the number of maximal whitespace-free runs.
The boolean argument records whether the previous character was part of a
word. -/
def splitCount : List Char → Bool → Nat
  | [], _ => 0
  | c :: r, inWord =>
    if pyIsSpace c then splitCount r false
    else (if inWord then 0 else 1) + splitCount r true

/-- `len(prompt.split())`. -/
def wordCount (s : List Char) : Nat := splitCount s false

/-- `s.count(c)` for a single character. -/
def countChar (c : Char) (s : List Char) : Nat :=
  (s.filter (fun d => d = c)).length

/-- Python's substring test `needle in hay`. -/
def pyContains (hay needle : List Char) : Bool :=
  match hay with
  | [] => needle.isEmpty
  | _ :: t => needle.isPrefixOf hay || pyContains t needle

/-- The `STRONG_KEYWORDS` list of `routing_client.py`. -/
def STRONG_KEYWORDS : List (List Char) :=
  [cs "explain in detail", cs "step by step", cs "comprehensive",
   cs "thorough", cs "deep dive", cs "advanced", cs "debug",
   cs "fix this code", cs "review my code", cs "optimize",
   cs "architecture", cs "design pattern", cs "algorithm", cs "prove",
   cs "derive", cs "mathematical"]

/-- The `NORMAL_KEYWORDS` list of `routing_client.py`. -/
def NORMAL_KEYWORDS : List (List Char) :=
  [cs "explain", cs "why", cs "how does", cs "compare", cs "analyze",
   cs "elaborate", cs "teach me", cs "help me understand",
   cs "what is the difference", cs "pros and cons", cs "advantages",
   cs "disadvantages", cs "example", cs "code", cs "write", cs "create",
   cs "implement"]

/-- `any(keyword in text for keyword in kws)`. -/
def kwAny (kws : List (List Char)) (s : List Char) : Bool :=
  kws.any (fun k => pyContains s k)

/-!
The five `SIMPLE_PATTERNS` regexes are compiled by hand.  Python's `re.match`
anchors at the start of the string only; `$` matches at the end of the string
or just before a final newline; `.` matches anything except a newline.
-/

/-- The `$` anchor: end of string, or just before a terminating newline. -/
def endOk : List Char → Bool
  | [] => true
  | ['\n'] => true
  | _ => false

/-- The regex tail `\.?$` with backtracking. -/
def dotOptEnd : List Char → Bool
  | '.' :: r => endOk r || endOk ('.' :: r)
  | r => endOk r

/-- The regex tail `\??$` with backtracking. -/
def qmarkOptEnd : List Char → Bool
  | '?' :: r => endOk r || endOk ('?' :: r)
  | r => endOk r

/-- Try each alternative as a literal prefix, then continue with `k` on the
remainder (regex alternation of literals followed by `k`). -/
def matchAltThen (alts : List (List Char)) (k : List Char → Bool)
    (s : List Char) : Bool :=
  alts.any (fun a => a.isPrefixOf s && k (s.drop a.length))

/-- A bounded repetition of `.` (between `lo` and `hi` characters, none a
newline) followed by `k`: there is some admissible length whose remainder
matches `k`. -/
def dotRangeThen (lo hi : Nat) (k : List Char → Bool) (s : List Char) : Bool :=
  (List.range' lo (hi - lo + 1)).any
    (fun n =>
      n ≤ (s.takeWhile (fun c => !(c = '\n'))).length && k (s.drop n))

/-- The regex tail `.+$` with backtracking. -/
def dotPlusEnd (s : List Char) : Bool :=
  (List.range s.length).any
    (fun i =>
      i + 1 ≤ (s.takeWhile (fun c => !(c = '\n'))).length &&
        endOk (s.drop (i + 1)))

/-- `\d+` followed by whatever `k` matches (the digit run is maximal, as a
backtracking matcher would settle on here since a digit cannot match the
following literal space). -/
def digitsThen (k : List Char → Bool) (s : List Char) : Bool :=
  let ds := s.takeWhile Char.isDigit
  !ds.isEmpty && k (s.drop ds.length)

/-- A literal space followed by `k`. -/
def spaceThen (k : List Char → Bool) : List Char → Bool
  | ' ' :: r => k r
  | _ => false

/-- Greeting words of the first simple pattern, in source order. -/
def GREETINGS : List (List Char) :=
  [cs "hi", cs "hello", cs "hey", cs "thanks", cs "thank you", cs "ok",
   cs "okay", cs "yes", cs "no", cs "bye", cs "goodbye"]

/-- Pattern `^(hi|hello|hey|thanks|thank you|ok|okay|yes|no|bye|goodbye)\.?$`. -/
def simplePattern1 (s : List Char) : Bool :=
  matchAltThen GREETINGS dotOptEnd s

/-- Pattern `^what (is|are) .` followed by 1 to 30 characters and `\??$`. -/
def simplePattern2 (s : List Char) : Bool :=
  matchAltThen [cs "what is ", cs "what are "] (dotRangeThen 1 30 qmarkOptEnd) s

/-- Pattern `^(list|name|give me) \d+ .+$`. -/
def simplePattern3 (s : List Char) : Bool :=
  matchAltThen [cs "list ", cs "name ", cs "give me "]
    (digitsThen (spaceThen dotPlusEnd)) s

/-- Pattern `^translate .+$`. -/
def simplePattern4 (s : List Char) : Bool :=
  matchAltThen [cs "translate "] dotPlusEnd s

/-- Pattern `^define .+$`. -/
def simplePattern5 (s : List Char) : Bool :=
  matchAltThen [cs "define "] dotPlusEnd s

/-- `any(re.match(p, prompt_lower, re.IGNORECASE) for p in SIMPLE_PATTERNS)`
(the `IGNORECASE` flag is inert because the input is already lower-cased). -/
def matchesSimplePattern (s : List Char) : Bool :=
  simplePattern1 s || simplePattern2 s || simplePattern3 s ||
    simplePattern4 s || simplePattern5 s

/-- `has_code`: `"```" in prompt or "def " in prompt or "function " in prompt
or "class " in prompt` — note it inspects the raw prompt. -/
def hasCode (prompt : List Char) : Bool :=
  pyContains prompt (cs "```") || pyContains prompt (cs "def ") ||
    pyContains prompt (cs "function ") || pyContains prompt (cs "class ")

/-- `classify_complexity` from `routing_client.py`. -/
def classify_complexity (prompt : List Char) : Tier :=
  let prompt_lower := lowerStrip prompt
  if matchesSimplePattern prompt_lower then Tier.fast
  else if kwAny STRONG_KEYWORDS prompt_lower then Tier.strong
  else if kwAny NORMAL_KEYWORDS prompt_lower then Tier.normal
  else
    let word_count := wordCount prompt
    let has_code := hasCode prompt
    let has_multiple_questions := decide (countChar '?' prompt > 1)
    let has_complex_code := decide (countChar '\n' prompt > 5) && has_code
    if has_complex_code || has_multiple_questions then Tier.strong
    else if has_code then Tier.normal
    else if word_count > 100 then Tier.strong
    else if word_count > 30 then Tier.normal
    else if word_count < 10 then Tier.fast
    else Tier.normal

/-! ### Character-level facts about the ASCII case folding -/

/-- The uppercase ASCII letters. -/
def upperChars : List Char := cs "ABCDEFGHIJKLMNOPQRSTUVWXYZ"

/-- The lowercase ASCII letters. -/
def lowerAscii : List Char := cs "abcdefghijklmnopqrstuvwxyz"

lemma pyLowerChar_fix (c : Char) (h : c ∉ upperChars) : pyLowerChar c = c := by
  have hne : ∀ u ∈ upperChars, ¬(c = u) := fun u hu hc => h (hc ▸ hu)
  unfold pyLowerChar
  rw [if_neg (hne 'A' (by decide)), if_neg (hne 'B' (by decide)),
    if_neg (hne 'C' (by decide)), if_neg (hne 'D' (by decide)),
    if_neg (hne 'E' (by decide)), if_neg (hne 'F' (by decide)),
    if_neg (hne 'G' (by decide)), if_neg (hne 'H' (by decide)),
    if_neg (hne 'I' (by decide)), if_neg (hne 'J' (by decide)),
    if_neg (hne 'K' (by decide)), if_neg (hne 'L' (by decide)),
    if_neg (hne 'M' (by decide)), if_neg (hne 'N' (by decide)),
    if_neg (hne 'O' (by decide)), if_neg (hne 'P' (by decide)),
    if_neg (hne 'Q' (by decide)), if_neg (hne 'R' (by decide)),
    if_neg (hne 'S' (by decide)), if_neg (hne 'T' (by decide)),
    if_neg (hne 'U' (by decide)), if_neg (hne 'V' (by decide)),
    if_neg (hne 'W' (by decide)), if_neg (hne 'X' (by decide)),
    if_neg (hne 'Y' (by decide)), if_neg (hne 'Z' (by decide))]

lemma pyLowerChar_cases (c : Char) :
    c ∈ upperChars ∨ pyLowerChar c = c := by
  by_cases h : c ∈ upperChars
  · exact Or.inl h
  · exact Or.inr (pyLowerChar_fix c h)

lemma pyLowerChar_of_upper : ∀ c ∈ upperChars, pyLowerChar c ∈ lowerAscii := by
  decide

lemma pyLowerChar_of_lower : ∀ c ∈ lowerAscii, pyLowerChar c = c := by
  decide

lemma pyIsSpace_pyLowerChar (c : Char) :
    pyIsSpace (pyLowerChar c) = pyIsSpace c := by
  rcases pyLowerChar_cases c with h | h
  · have h1 : pyIsSpace c = false := by
      revert h; revert c; decide
    have h2 : pyIsSpace (pyLowerChar c) = false := by
      have := pyLowerChar_of_upper c h
      revert this; generalize pyLowerChar c = d; revert d; decide
    rw [h1, h2]
  · rw [h]

lemma pyLowerChar_idem (c : Char) :
    pyLowerChar (pyLowerChar c) = pyLowerChar c := by
  rcases pyLowerChar_cases c with h | h
  · exact pyLowerChar_of_lower _ (pyLowerChar_of_upper c h)
  · rw [h, h]

lemma pyLowerChar_eq_qmark (c : Char) :
    (pyLowerChar c = '?') ↔ (c = '?') := by
  rcases pyLowerChar_cases c with h | h
  · constructor
    · intro hq
      exfalso
      have := pyLowerChar_of_upper c h
      rw [hq] at this
      exact absurd this (by decide)
    · intro hq
      exfalso
      rw [hq] at h
      exact absurd h (by decide)
  · rw [h]

/-! ### List-level facts: `split`, `count`, `strip` and `lower` interact -/

lemma splitCount_pyLower (s : List Char) (b : Bool) :
    splitCount (pyLower s) b = splitCount s b := by
  induction s generalizing b with
  | nil => rfl
  | cons c r ih =>
    show splitCount (pyLowerChar c :: pyLower r) b = _
    simp only [splitCount, pyIsSpace_pyLowerChar, ih]

lemma splitCount_spaces (t : List Char) (h : ∀ c ∈ t, pyIsSpace c = true) :
    ∀ b, splitCount t b = 0 := by
  induction t with
  | nil => intro b; rfl
  | cons c r ih =>
    intro b
    have hc := h c (by simp)
    simp only [splitCount, hc, if_true]
    exact ih (fun d hd => h d (by simp [hd])) false

lemma splitCount_append_spaces (m t : List Char)
    (h : ∀ c ∈ t, pyIsSpace c = true) :
    ∀ b, splitCount (m ++ t) b = splitCount m b := by
  induction m with
  | nil =>
    intro b
    simpa using splitCount_spaces t h b
  | cons c r ih =>
    intro b
    simp only [List.cons_append, splitCount, List.append_eq, ih]

lemma splitCount_dropWhile (s : List Char) :
    splitCount (s.dropWhile pyIsSpace) false = splitCount s false := by
  induction s with
  | nil => rfl
  | cons c r ih =>
    by_cases hc : pyIsSpace c
    · simp only [List.dropWhile_cons, hc, if_true, splitCount, ih]
    · simp [List.dropWhile_cons, hc]

lemma dropTrail_decomp (s : List Char) :
    ∃ t, s = dropTrail s ++ t ∧ ∀ c ∈ t, pyIsSpace c = true := by
  induction s with
  | nil => exact ⟨[], rfl, by simp⟩
  | cons c r ih =>
    obtain ⟨t, ht, hsp⟩ := ih
    cases hdr : dropTrail r with
    | nil =>
      rw [hdr] at ht
      simp only [List.nil_append] at ht
      by_cases hc : pyIsSpace c
      · refine ⟨c :: r, ?_, ?_⟩
        · simp [dropTrail, hdr, hc]
        · intro d hd
          rcases List.mem_cons.mp hd with h | h
          · rw [h]; exact hc
          · exact hsp d (ht ▸ h)
      · refine ⟨t, ?_, hsp⟩
        have : dropTrail (c :: r) = [c] := by
          simp [dropTrail, hdr, hc]
        rw [this, ht]
        rfl
    | cons x xs =>
      refine ⟨t, ?_, hsp⟩
      have : dropTrail (c :: r) = c :: dropTrail r := by
        simp [dropTrail, hdr]
      rw [this, hdr, ← hdr, List.cons_append, ← ht]

lemma wordCount_lowerStrip (s : List Char) :
    wordCount (lowerStrip s) = wordCount s := by
  unfold wordCount lowerStrip pyStrip
  obtain ⟨t, ht, hsp⟩ := dropTrail_decomp ((pyLower s).dropWhile pyIsSpace)
  calc splitCount (dropTrail ((pyLower s).dropWhile pyIsSpace)) false
      = splitCount (dropTrail ((pyLower s).dropWhile pyIsSpace) ++ t) false :=
        (splitCount_append_spaces _ t hsp false).symm
    _ = splitCount ((pyLower s).dropWhile pyIsSpace) false := by rw [← ht]
    _ = splitCount (pyLower s) false := splitCount_dropWhile _
    _ = splitCount s false := splitCount_pyLower s false

lemma countChar_append (c : Char) (a b : List Char) :
    countChar c (a ++ b) = countChar c a + countChar c b := by
  simp [countChar, List.filter_append]

lemma countChar_spaces_qmark (t : List Char)
    (h : ∀ c ∈ t, pyIsSpace c = true) :
    countChar '?' t = 0 := by
  induction t with
  | nil => rfl
  | cons c r ih =>
    have hc := h c (by simp)
    have hne : decide (c = '?') = false := by
      apply decide_eq_false
      intro hq
      rw [hq] at hc
      exact absurd hc (by decide)
    have ih' := ih (fun d hd => h d (by simp [hd]))
    simp only [countChar, List.filter_cons, hne] at ih' ⊢
    simpa using ih'

lemma countChar_qmark_pyLower (s : List Char) :
    countChar '?' (pyLower s) = countChar '?' s := by
  induction s with
  | nil => rfl
  | cons c r ih =>
    show countChar '?' (pyLowerChar c :: pyLower r) = _
    have : decide (pyLowerChar c = '?') = decide (c = '?') :=
      decide_eq_decide.mpr (pyLowerChar_eq_qmark c)
    simp only [countChar, List.filter, this] at *
    cases h : decide (c = '?') <;> simp [h] at * <;> omega

lemma countChar_qmark_lowerStrip (s : List Char) :
    countChar '?' (lowerStrip s) = countChar '?' s := by
  unfold lowerStrip pyStrip
  obtain ⟨t, ht, hsp⟩ := dropTrail_decomp ((pyLower s).dropWhile pyIsSpace)
  have h1 : countChar '?' (dropTrail ((pyLower s).dropWhile pyIsSpace)) =
      countChar '?' ((pyLower s).dropWhile pyIsSpace) := by
    conv_rhs => rw [ht]
    rw [countChar_append, countChar_spaces_qmark t hsp]
    omega
  have h2 : countChar '?' ((pyLower s).dropWhile pyIsSpace) =
      countChar '?' (pyLower s) := by
    conv_rhs => rw [← List.takeWhile_append_dropWhile (p := pyIsSpace) (l := pyLower s)]
    rw [countChar_append, countChar_spaces_qmark _
      (fun c hc => List.mem_takeWhile_imp hc)]
    omega
  rw [h1, h2, countChar_qmark_pyLower]

lemma dropWhile_head_false (p : Char → Bool) (l : List Char) (c : Char)
    (cl : List Char) (h : l.dropWhile p = c :: cl) : p c = false := by
  induction l with
  | nil => simp at h
  | cons a as ih =>
    rw [List.dropWhile_cons] at h
    by_cases ha : p a
    · rw [if_pos ha] at h; exact ih h
    · rw [if_neg ha] at h
      obtain ⟨h1, _⟩ := List.cons.inj h
      rw [← h1]
      simpa using ha

lemma dropWhile_dropWhile (p : Char → Bool) (l : List Char) :
    (l.dropWhile p).dropWhile p = l.dropWhile p := by
  cases h : l.dropWhile p with
  | nil => rfl
  | cons c cl =>
    rw [List.dropWhile_cons, if_neg]
    rw [dropWhile_head_false p l c cl h]
    simp

lemma dropTrail_idem (s : List Char) : dropTrail (dropTrail s) = dropTrail s := by
  induction s with
  | nil => rfl
  | cons c r ih =>
    cases hdr : dropTrail r with
    | nil =>
      by_cases hc : pyIsSpace c
      · simp [dropTrail, hdr, hc]
      · simp [dropTrail, hdr, hc]
    | cons x xs =>
      have h1 : dropTrail (c :: r) = c :: dropTrail r := by
        simp [dropTrail, hdr]
      rw [h1]
      show dropTrail (c :: dropTrail r) = _
      rw [show dropTrail (c :: dropTrail r) =
          match dropTrail (dropTrail r) with
          | [] => if pyIsSpace c then [] else [c]
          | r' => c :: r' from rfl]
      rw [ih, hdr]

lemma pyStrip_idem (s : List Char) : pyStrip (pyStrip s) = pyStrip s := by
  unfold pyStrip
  have hx : ((dropTrail (s.dropWhile pyIsSpace)).dropWhile pyIsSpace) =
      dropTrail (s.dropWhile pyIsSpace) := by
    cases h : dropTrail (s.dropWhile pyIsSpace) with
    | nil => rfl
    | cons c cl =>
      obtain ⟨t, ht, _⟩ := dropTrail_decomp (s.dropWhile pyIsSpace)
      rw [h] at ht
      have hc : pyIsSpace c = false := by
        have hdw : s.dropWhile pyIsSpace = c :: (cl ++ t) := by
          rw [ht]; rfl
        exact dropWhile_head_false pyIsSpace s c (cl ++ t) hdw
      rw [List.dropWhile_cons, if_neg (by rw [hc]; simp)]
  rw [hx, dropTrail_idem]

lemma dropTrail_pyLower (s : List Char) :
    dropTrail (pyLower s) = pyLower (dropTrail s) := by
  induction s with
  | nil => rfl
  | cons c r ih =>
    show dropTrail (pyLowerChar c :: pyLower r) = pyLower (dropTrail (c :: r))
    cases hdr : dropTrail r with
    | nil =>
      have hm : dropTrail (pyLower r) = [] := by rw [ih, hdr]; rfl
      rw [show dropTrail (pyLowerChar c :: pyLower r) =
          match dropTrail (pyLower r) with
          | [] => if pyIsSpace (pyLowerChar c) then [] else [pyLowerChar c]
          | r' => pyLowerChar c :: r' from rfl]
      rw [hm]
      rw [show dropTrail (c :: r) =
          match dropTrail r with
          | [] => if pyIsSpace c then [] else [c]
          | r' => c :: r' from rfl]
      rw [hdr, pyIsSpace_pyLowerChar]
      by_cases hc : pyIsSpace c
      · simp [hc, pyLower]
      · simp [hc, pyLower]
    | cons x xs =>
      have hm : dropTrail (pyLower r) = pyLowerChar x :: pyLower xs := by
        rw [ih, hdr]; rfl
      rw [show dropTrail (pyLowerChar c :: pyLower r) =
          match dropTrail (pyLower r) with
          | [] => if pyIsSpace (pyLowerChar c) then [] else [pyLowerChar c]
          | r' => pyLowerChar c :: r' from rfl]
      rw [hm]
      rw [show dropTrail (c :: r) =
          match dropTrail r with
          | [] => if pyIsSpace c then [] else [c]
          | r' => c :: r' from rfl]
      rw [hdr]
      rfl

lemma pyLower_pyLower (s : List Char) : pyLower (pyLower s) = pyLower s := by
  unfold pyLower
  rw [List.map_map]
  exact List.map_congr_left (fun a _ => pyLowerChar_idem a)

lemma pyStrip_pyLower_comm (s : List Char) :
    pyStrip (pyLower s) = pyLower (pyStrip s) := by
  unfold pyStrip
  have hf : pyIsSpace ∘ pyLowerChar = pyIsSpace := funext pyIsSpace_pyLowerChar
  have h1 : (pyLower s).dropWhile pyIsSpace = pyLower (s.dropWhile pyIsSpace) := by
    unfold pyLower
    rw [List.dropWhile_map, hf]
  rw [h1, dropTrail_pyLower]

lemma lowerStrip_idem (s : List Char) :
    lowerStrip (lowerStrip s) = lowerStrip s := by
  unfold lowerStrip
  have key : pyStrip (pyLower (pyStrip (pyLower s))) =
      pyLower (pyStrip (pyStrip (pyLower s))) :=
    pyStrip_pyLower_comm (pyStrip (pyLower s))
  rw [key, pyStrip_idem, ← pyStrip_pyLower_comm, pyLower_pyLower]

/-! ### Claims about the rule-based classifier -/

/-- Input refuting claim C2: it matches the `translate` simple pattern yet
contains a strong and a normal keyword. -/
def c2query : List Char := cs "translate explain step by step"

/-- Claim C2, counterexample: a query containing both a strong keyword
(`step by step`) and a normal keyword (`explain`) is classified `fast`,
not `strong`, because the simple-pattern stage (`^translate .+$`) runs
before any keyword check. -/
theorem C2_counterexample :
    kwAny STRONG_KEYWORDS (lowerStrip c2query) = true ∧
    kwAny NORMAL_KEYWORDS (lowerStrip c2query) = true ∧
    classify_complexity c2query = Tier.fast ∧ Tier.fast ≠ Tier.strong :=
  ⟨by decide, by decide, by decide, by decide⟩

/-- Claim C2 (corrected): provided the query matches no simple pattern,
a query whose lower-cased trimmed text contains a strong keyword and a
normal keyword classifies `strong` (strong keywords are checked first). -/
theorem C2_amended (q : List Char)
    (hp : matchesSimplePattern (lowerStrip q) = false)
    (hs : kwAny STRONG_KEYWORDS (lowerStrip q) = true)
    (hn : kwAny NORMAL_KEYWORDS (lowerStrip q) = true) :
    classify_complexity q = Tier.strong := by
  simp [classify_complexity, hp, hs]

/-- Witness for C2: the spec's own example query, with every hypothesis
checked by evaluation. -/
theorem C2_witness :
    matchesSimplePattern (lowerStrip (cs "explain how to optimize this algorithm")) = false ∧
    kwAny STRONG_KEYWORDS (lowerStrip (cs "explain how to optimize this algorithm")) = true ∧
    kwAny NORMAL_KEYWORDS (lowerStrip (cs "explain how to optimize this algorithm")) = true ∧
    classify_complexity (cs "explain how to optimize this algorithm") = Tier.strong :=
  ⟨by decide, by decide, by decide,
    C2_amended (cs "explain how to optimize this algorithm")
      (by decide) (by decide) (by decide)⟩

/-- Claim C3: the enumerated classifier outputs, including the generic
facts about keyword-free 150-word and 5-word queries. -/
theorem C3_examples :
    classify_complexity (cs "hi") = Tier.fast ∧
    classify_complexity (cs "thanks!") = Tier.fast ∧
    classify_complexity (cs "what is gravity?") = Tier.fast ∧
    classify_complexity (cs "Explain how photosynthesis works") = Tier.normal ∧
    classify_complexity
      (cs "Explain in detail and step by step the architecture of a CPU") =
      Tier.strong ∧
    (∀ q, wordCount q = 150 →
      matchesSimplePattern (lowerStrip q) = false →
      kwAny STRONG_KEYWORDS (lowerStrip q) = false →
      kwAny NORMAL_KEYWORDS (lowerStrip q) = false →
      hasCode q = false →
      classify_complexity q = Tier.strong) ∧
    (∀ q, wordCount q = 5 →
      matchesSimplePattern (lowerStrip q) = false →
      kwAny STRONG_KEYWORDS (lowerStrip q) = false →
      kwAny NORMAL_KEYWORDS (lowerStrip q) = false →
      hasCode q = false →
      countChar '?' q ≤ 1 →
      classify_complexity q = Tier.fast) := by
  refine ⟨by decide, by decide, by decide, by decide, by decide, ?_, ?_⟩
  · intro q hwc hp hs hn hcode
    have h100 : wordCount q > 100 := by omega
    simp [classify_complexity, hp, hs, hn, hcode, h100]
  · intro q hwc hp hs hn hcode hq
    have hm : decide (countChar '?' q > 1) = false := decide_eq_false (by omega)
    have h100 : ¬ (wordCount q > 100) := by omega
    have h30 : ¬ (wordCount q > 30) := by omega
    have h10 : wordCount q < 10 := by omega
    simp [classify_complexity, hp, hs, hn, hcode, hm, h100, h30, h10]

/-- A 150-word keyword-free query (25 copies of six fruit words). -/
def q150 : List Char :=
  (List.replicate 25 (cs "lemon mango peach plum apple grape ")).flatten

/-- A 5-word keyword-free query. -/
def q5 : List Char := cs "lemon mango peach plum apple"

set_option maxRecDepth 40000 in
/-- Witness for C3: the two universally quantified clauses applied to
concrete 150-word and 5-word queries. -/
theorem C3_witness :
    (wordCount q150 = 150 ∧ classify_complexity q150 = Tier.strong) ∧
    (wordCount q5 = 5 ∧ classify_complexity q5 = Tier.fast) :=
  ⟨⟨by decide,
    C3_examples.2.2.2.2.2.1 q150 (by decide) (by decide) (by decide)
      (by decide) (by decide)⟩,
   ⟨by decide,
    C3_examples.2.2.2.2.2.2 q5 (by decide) (by decide) (by decide)
      (by decide) (by decide) (by decide)⟩⟩

/-- Input refuting claim C9: `Def ` capitalised is not a code token for the
heuristics, but its lower-cased form `def ` is. -/
def c9query : List Char := cs "now run Def foo here"

/-- Claim C9, counterexample: the classifier is not a pure function of the
lower-cased trimmed text — the structural heuristics inspect the raw
prompt, so lower-casing this query flips the tier from `fast` to
`normal`. -/
theorem C9_counterexample :
    classify_complexity c9query ≠
      classify_complexity (lowerStrip c9query) := by decide

/-- Claim C9 (corrected): the pattern and keyword stages depend only on the
lower-cased trimmed text, and word count and question-mark count are
invariant under lower-casing and trimming; hence whenever the raw query and
its lower-cased trimmed form agree on the code-token indicators and on the
newline count, the classifier agrees on both. -/
theorem C9_amended (q : List Char)
    (h1 : hasCode (lowerStrip q) = hasCode q)
    (h2 : countChar '\n' (lowerStrip q) = countChar '\n' q) :
    classify_complexity q = classify_complexity (lowerStrip q) := by
  simp only [classify_complexity, lowerStrip_idem, h1, h2,
    wordCount_lowerStrip, countChar_qmark_lowerStrip]

/-- Witness for C9: a code-free query where the agreement hypotheses hold
by evaluation. -/
theorem C9_witness :
    hasCode (lowerStrip (cs "Zebra Cloud Stone River")) =
      hasCode (cs "Zebra Cloud Stone River") ∧
    countChar '\n' (lowerStrip (cs "Zebra Cloud Stone River")) =
      countChar '\n' (cs "Zebra Cloud Stone River") ∧
    classify_complexity (cs "Zebra Cloud Stone River") =
      classify_complexity (lowerStrip (cs "Zebra Cloud Stone River")) :=
  ⟨by decide, by decide,
    C9_amended (cs "Zebra Cloud Stone River") (by decide) (by decide)⟩

/-! ### Session state and the three front-end loops

The temperatures handled by the loops are modelled as exact rationals: the
loops only move them around, so the carrier type is irrelevant to their
control flow.  The backend call of each turn is an explicit
`DispatchOutcome` parameter.
-/

/-- A conversation role. -/
inductive Role
  | user
  | assistant
deriving DecidableEq, Repr

/-- One conversation turn (`{"role": ..., "content": ...}`). -/
abbrev Msg := Role × List Char

/-- The three per-tier histories (`messages_fast` / `messages_normal` /
`messages_strong`). -/
structure Hists where
  fast : List Msg
  normal : List Msg
  strong : List Msg
deriving DecidableEq, Repr

/-- The history list selected for a tier. -/
def Hists.get (h : Hists) : Tier → List Msg
  | Tier.fast => h.fast
  | Tier.normal => h.normal
  | Tier.strong => h.strong

/-- Replace the history list of one tier. -/
def Hists.set (h : Hists) : Tier → List Msg → Hists
  | Tier.fast, l => { h with fast := l }
  | Tier.normal, l => { h with normal := l }
  | Tier.strong, l => { h with strong := l }

lemma Hists.get_set (h : Hists) (t u : Tier) (l : List Msg) :
    (h.set t l).get u = if u = t then l else h.get u := by
  cases t <;> cases u <;> simp [Hists.get, Hists.set]

/-- Result of the chat/generate dispatch made for a turn.  `reqError` is a
`requests.RequestException`; `otherError` is any other exception the call
can raise (for instance the `json.loads` of a malformed streaming line). -/
inductive DispatchOutcome
  | ok (resp : List Char)
  | reqError
  | otherError
deriving DecidableEq, Repr

/-- How a turn ended: normally, with a handled (rolled-back) dispatch error,
or with an uncaught exception escaping the loop body. -/
inductive TurnEnd
  | completed
  | handledError
  | crashed
deriving DecidableEq, Repr

/-- The output of `classify_with_ai` as consumed by the `smart_router.py`
loop (difficulty, temperature, reason). -/
structure Classification where
  difficulty : Tier
  temperature : ℚ
  reason : List Char
deriving DecidableEq, Repr

/-- The (tier, temperature) pair a routing turn settles on. -/
structure TurnDecision where
  tier : Tier
  temperature : ℚ
deriving DecidableEq, Repr

/-- The mutable state of the `smart_router.py` main loop. -/
structure SRState where
  hists : Hists
  forceMode : Option Tier
  fixedTemp : Option ℚ
deriving DecidableEq, Repr

/-- A session command of `smart_router.py` (`/fast`, `/normal`, `/strong`,
`/auto`, `/temp x`). -/
inductive Cmd
  | force (t : Tier)
  | auto
  | tempSet (x : ℚ)
deriving DecidableEq

/-- Command handling in the `smart_router.py` loop: `/fast`, `/normal` and
`/strong` set `force_mode`; `/auto` clears `force_mode` and `fixed_temp`;
`/temp x` stores the clamped fixed temperature. -/
def smartCommand (st : SRState) : Cmd → SRState
  | Cmd.force t => { st with forceMode := some t }
  | Cmd.auto => { st with forceMode := none, fixedTemp := none }
  | Cmd.tempSet x => { st with fixedTemp := some (max 0 (min 1 x)) }

/-- One non-command iteration of the `smart_router.py` main loop.  `cl` is
the classification `classify_with_ai` would return for this input, and `d`
the outcome of the `chat` dispatch. -/
def smart_main_turn (st : SRState) (input : List Char) (cl : Classification)
    (d : DispatchOutcome) : SRState × TurnDecision × TurnEnd :=
  let base : Tier × ℚ :=
    match st.forceMode with
    | some m => (m, match st.fixedTemp with | some t => t | none => 0.7)
    | none => (cl.difficulty, cl.temperature)
  let temperature : ℚ :=
    match st.fixedTemp with
    | some t => t
    | none => base.2
  let difficulty := base.1
  let appended := st.hists.get difficulty ++ [(Role.user, input)]
  match d with
  | DispatchOutcome.ok resp =>
    ({ st with
        hists := st.hists.set difficulty
          (appended ++ [(Role.assistant, resp)]),
        forceMode := none },
      ⟨difficulty, temperature⟩, TurnEnd.completed)
  | DispatchOutcome.reqError =>
    ({ st with
        hists := st.hists.set difficulty appended.dropLast,
        forceMode := none },
      ⟨difficulty, temperature⟩, TurnEnd.handledError)
  | DispatchOutcome.otherError =>
    ({ st with
        hists := st.hists.set difficulty appended,
        forceMode := none },
      ⟨difficulty, temperature⟩, TurnEnd.crashed)

/-- The mutable state of the `routing_client.py` main loop (its temperature
is a process-wide constant, so only histories and `force_mode` matter). -/
structure RCState where
  hists : Hists
  forceMode : Option Tier
deriving DecidableEq, Repr

/-- One non-command iteration of the `routing_client.py` main loop; the tier
comes from `force_mode` or from `classify_complexity`. -/
def routing_main_turn (st : RCState) (input : List Char)
    (d : DispatchOutcome) : RCState × Tier × TurnEnd :=
  let choice : Tier :=
    match st.forceMode with
    | some m => m
    | none => classify_complexity input
  let appended := st.hists.get choice ++ [(Role.user, input)]
  match d with
  | DispatchOutcome.ok resp =>
    ({ hists := st.hists.set choice (appended ++ [(Role.assistant, resp)]),
       forceMode := none }, choice, TurnEnd.completed)
  | DispatchOutcome.reqError =>
    ({ hists := st.hists.set choice appended.dropLast,
       forceMode := none }, choice, TurnEnd.handledError)
  | DispatchOutcome.otherError =>
    ({ hists := st.hists.set choice appended,
       forceMode := none }, choice, TurnEnd.crashed)

/-- The control values the Gradio UI passes to `respond` on every call: the
`force_mode` radio (`Auto` is `none`) and the `fixed_temp` slider value
(typed `float | None` in the source). -/
structure WebUI where
  radio : Option Tier
  fixedTemp : Option ℚ
deriving DecidableEq, Repr

/-- Python's `f if f else d` on an optional float: the value is used only
when it is present *and* truthy (nonzero). -/
def pyOrElse (f : Option ℚ) (dflt : ℚ) : ℚ :=
  match f with
  | some t => if t = 0 then dflt else t
  | none => dflt

/-- The `respond` handler of `web_ui.py` for a non-empty message: pure in
the UI controls, the classification the router model would produce, and the
dispatch outcome.  On a dispatch exception the user turn is *not* removed
from the tier history. -/
def respond (hists : Hists) (ui : WebUI) (message : List Char)
    (cl : Classification) (d : DispatchOutcome) : Hists × TurnDecision :=
  let base : Tier × ℚ :=
    match ui.radio with
    | some t => (t, pyOrElse ui.fixedTemp 0.7)
    | none => (cl.difficulty, pyOrElse ui.fixedTemp cl.temperature)
  let appended := hists.get base.1 ++ [(Role.user, message)]
  match d with
  | DispatchOutcome.ok resp =>
    (hists.set base.1 (appended ++ [(Role.assistant, resp)]),
      ⟨base.1, base.2⟩)
  | _ =>
    (hists.set base.1 appended, ⟨base.1, base.2⟩)

/-- Empty per-tier histories (`[]`, `[]`, `[]` at start-up). -/
def emptyHists : Hists := ⟨[], [], []⟩

/-- Claim C4, counterexample: in the web UI a fixed temperature of `0.0` is
falsy, so the automatic branch uses the classifier's temperature (here
`1/2`) instead of the fixed `0`. -/
theorem C4_counterexample :
    (respond emptyHists ⟨none, some 0⟩ (cs "hello")
        ⟨Tier.normal, 1/2, cs "r"⟩ (DispatchOutcome.ok (cs "answer"))).2.temperature
        = 1/2 ∧
      ((1 : ℚ)/2 ≠ 0) := by
  constructor
  · simp [respond, pyOrElse]
  · norm_num

/-- Claim C4 (corrected): in the terminal smart router a fixed temperature
— any value, including `0.0` — overrides every decision and persists; in
the web UI the override applies only when the fixed value is nonzero
(Python truthiness of the float). -/
theorem C4_amended :
    (∀ (st : SRState) (x : ℚ) (input : List Char) (cl : Classification)
        (d : DispatchOutcome),
      (smart_main_turn (smartCommand st (Cmd.tempSet x)) input cl
            d).2.1.temperature = max 0 (min 1 x) ∧
        (smart_main_turn (smartCommand st (Cmd.tempSet x)) input cl
            d).1.fixedTemp = some (max 0 (min 1 x))) ∧
    (∀ (st : SRState) (t : ℚ) (input : List Char) (cl : Classification)
        (d : DispatchOutcome), st.fixedTemp = some t →
      (smart_main_turn st input cl d).2.1.temperature = t ∧
        (smart_main_turn st input cl d).1.fixedTemp = some t) ∧
    (∀ (hists : Hists) (ui : WebUI) (m : List Char) (cl : Classification)
        (d : DispatchOutcome) (t : ℚ), ui.fixedTemp = some t → t ≠ 0 →
      (respond hists ui m cl d).2.temperature = t) := by
  refine ⟨?_, ?_, ?_⟩
  · intro st x input cl d
    cases d <;> cases h : st.forceMode <;>
      simp [smart_main_turn, smartCommand, h]
  · intro st t input cl d hf
    cases d <;> cases h : st.forceMode <;>
      simp [smart_main_turn, hf, h]
  · intro hists ui m cl d t hf ht
    cases d <;> cases h : ui.radio <;>
      simp [respond, pyOrElse, hf, ht, h]

/-- Witness for C4: both fixed-temperature clauses applied to concrete
states (the terminal router pinned at `3/10`, the web UI at `1/4`). -/
theorem C4_witness :
    ((smart_main_turn ⟨emptyHists, none, some (3/10)⟩ (cs "hello")
          ⟨Tier.strong, 9/10, cs "r"⟩
          (DispatchOutcome.ok (cs "a"))).2.1.temperature = 3/10 ∧
      (smart_main_turn ⟨emptyHists, none, some (3/10)⟩ (cs "hello")
          ⟨Tier.strong, 9/10, cs "r"⟩
          (DispatchOutcome.ok (cs "a"))).1.fixedTemp = some (3/10)) ∧
    (respond emptyHists ⟨none, some (1/4)⟩ (cs "hello")
        ⟨Tier.normal, 9/10, cs "r"⟩
        (DispatchOutcome.ok (cs "a"))).2.temperature = 1/4 :=
  ⟨C4_amended.2.1 ⟨emptyHists, none, some (3/10)⟩ (3/10) (cs "hello")
      ⟨Tier.strong, 9/10, cs "r"⟩ (DispatchOutcome.ok (cs "a")) rfl,
    C4_amended.2.2 emptyHists ⟨none, some (1/4)⟩ (cs "hello")
      ⟨Tier.normal, 9/10, cs "r"⟩ (DispatchOutcome.ok (cs "a")) (1/4) rfl
      (by norm_num)⟩

/-- Claim C5, counterexample: in the web UI the forced-tier selection is a
persistent radio value, so the routing decision *after* the one that used
the forced tier still uses it (here `strong`) instead of reverting to the
classifier's tier (`fast`). -/
theorem C5_counterexample :
    (respond
        (respond emptyHists ⟨some Tier.strong, none⟩ (cs "hi")
            ⟨Tier.fast, 7/10, cs "greeting"⟩ (DispatchOutcome.ok (cs "a"))).1
        ⟨some Tier.strong, none⟩ (cs "hi")
        ⟨Tier.fast, 7/10, cs "greeting"⟩
        (DispatchOutcome.ok (cs "b"))).2.tier = Tier.strong ∧
      Tier.strong ≠ Tier.fast :=
  ⟨by decide, by decide⟩

/-- Claim C5 (corrected): in the two terminal clients the forced tier is
one-shot — the next decision uses it whatever the content, the state is
cleared by consumption, and the following decision is classified
automatically; in the web UI the forced selection applies to *every* call
while the radio is set. -/
theorem C5_amended :
    (∀ (st : SRState) (m : Tier) (in1 in2 : List Char)
        (cl1 cl2 : Classification) (d1 d2 : DispatchOutcome),
      (smart_main_turn (smartCommand st (Cmd.force m)) in1 cl1 d1).2.1.tier
          = m ∧
        (smart_main_turn (smartCommand st (Cmd.force m)) in1 cl1
            d1).1.forceMode = none ∧
        (smart_main_turn
            (smart_main_turn (smartCommand st (Cmd.force m)) in1 cl1 d1).1
            in2 cl2 d2).2.1.tier = cl2.difficulty) ∧
    (∀ (st : RCState) (m : Tier) (in1 in2 : List Char)
        (d1 d2 : DispatchOutcome), st.forceMode = some m →
      (routing_main_turn st in1 d1).2.1 = m ∧
        (routing_main_turn st in1 d1).1.forceMode = none ∧
        (routing_main_turn (routing_main_turn st in1 d1).1 in2 d2).2.1 =
          classify_complexity in2) ∧
    (∀ (hists : Hists) (ui : WebUI) (m : List Char) (cl : Classification)
        (d : DispatchOutcome) (t : Tier), ui.radio = some t →
      (respond hists ui m cl d).2.tier = t) := by
  refine ⟨?_, ?_, ?_⟩
  · intro st m in1 in2 cl1 cl2 d1 d2
    cases d1 <;> cases d2 <;> simp [smart_main_turn, smartCommand]
  · intro st m in1 in2 d1 d2 hf
    cases d1 <;> cases d2 <;> simp [routing_main_turn, hf]
  · intro hists ui m cl d t hr
    cases d <;> simp [respond, hr]

/-- Witness for C5: the one-shot behaviour of `routing_client.py` and the
persistent behaviour of the web UI at concrete states. -/
theorem C5_witness :
    ((routing_main_turn ⟨emptyHists, some Tier.strong⟩ (cs "hi")
          (DispatchOutcome.ok (cs "a"))).2.1 = Tier.strong ∧
      (routing_main_turn ⟨emptyHists, some Tier.strong⟩ (cs "hi")
          (DispatchOutcome.ok (cs "a"))).1.forceMode = none ∧
      (routing_main_turn
          (routing_main_turn ⟨emptyHists, some Tier.strong⟩ (cs "hi")
            (DispatchOutcome.ok (cs "a"))).1 (cs "hi")
          (DispatchOutcome.ok (cs "b"))).2.1 =
        classify_complexity (cs "hi")) ∧
    (respond emptyHists ⟨some Tier.fast, none⟩ (cs "zzz")
        ⟨Tier.strong, 1/2, cs "r"⟩
        (DispatchOutcome.ok (cs "a"))).2.tier = Tier.fast :=
  ⟨C5_amended.2.1 ⟨emptyHists, some Tier.strong⟩ Tier.strong (cs "hi")
      (cs "hi") (DispatchOutcome.ok (cs "a")) (DispatchOutcome.ok (cs "b"))
      rfl,
    C5_amended.2.2 emptyHists ⟨some Tier.fast, none⟩ (cs "zzz")
      ⟨Tier.strong, 1/2, cs "r"⟩ (DispatchOutcome.ok (cs "a")) Tier.fast
      rfl⟩

/-- Claim C6, counterexample: a dispatch failure outside the caught
`RequestException` family (for instance a JSON decode error on a streaming
line) escapes the loop body without rollback, leaving the orphaned user
turn in the selected tier's history. -/
theorem C6_counterexample :
    (smart_main_turn ⟨emptyHists, none, none⟩ (cs "hi")
          ⟨Tier.normal, 1/2, cs "r"⟩ DispatchOutcome.otherError).2.2 =
        TurnEnd.crashed ∧
      (smart_main_turn ⟨emptyHists, none, none⟩ (cs "hi")
          ⟨Tier.normal, 1/2, cs "r"⟩ DispatchOutcome.otherError).1.hists.get
          Tier.normal = [(Role.user, cs "hi")] ∧
      emptyHists.get Tier.normal = [] :=
  ⟨by decide, by decide, by decide⟩

/-- Claim C6 (corrected): when the dispatch fails with a request error (the
caught `RequestException` family) both terminal loops pop the freshly
appended user turn, restoring the selected tier's history exactly; and in
every turn, whatever the outcome, the two non-selected tiers' histories are
untouched. -/
theorem C6_amended :
    (∀ (st : SRState) (input : List Char) (cl : Classification),
      (smart_main_turn st input cl DispatchOutcome.reqError).1.hists.get
          (smart_main_turn st input cl DispatchOutcome.reqError).2.1.tier =
        st.hists.get
          (smart_main_turn st input cl DispatchOutcome.reqError).2.1.tier) ∧
    (∀ (st : SRState) (input : List Char) (cl : Classification)
        (d : DispatchOutcome) (u : Tier),
      u ≠ (smart_main_turn st input cl d).2.1.tier →
      (smart_main_turn st input cl d).1.hists.get u = st.hists.get u) ∧
    (∀ (st : RCState) (input : List Char),
      (routing_main_turn st input DispatchOutcome.reqError).1.hists.get
          (routing_main_turn st input DispatchOutcome.reqError).2.1 =
        st.hists.get (routing_main_turn st input DispatchOutcome.reqError).2.1) ∧
    (∀ (st : RCState) (input : List Char) (d : DispatchOutcome) (u : Tier),
      u ≠ (routing_main_turn st input d).2.1 →
      (routing_main_turn st input d).1.hists.get u = st.hists.get u) := by
  refine ⟨?_, ?_, ?_, ?_⟩
  · intro st input cl
    cases h : st.forceMode <;>
      simp [smart_main_turn, h, Hists.get_set, List.dropLast_concat]
  · intro st input cl d u hu
    cases d <;> cases h : st.forceMode <;>
      simp [smart_main_turn, h] at hu ⊢ <;>
      simp [Hists.get_set, hu]
  · intro st input
    cases h : st.forceMode <;>
      simp [routing_main_turn, h, Hists.get_set, List.dropLast_concat]
  · intro st input d u hu
    cases d <;> cases h : st.forceMode <;>
      simp [routing_main_turn, h] at hu ⊢ <;>
      simp [Hists.get_set, hu]

/-- Witness for C6: the isolation clause applied to a concrete successful
turn for the smart router (selected tier is `normal`, checked tier is
`fast`). -/
theorem C6_witness :
    (smart_main_turn ⟨emptyHists, none, none⟩ (cs "hi")
        ⟨Tier.normal, 1/2, cs "r"⟩ (DispatchOutcome.ok (cs "a"))).1.hists.get
      Tier.fast = Hists.get ⟨[], [], []⟩ Tier.fast :=
  C6_amended.2.1 ⟨emptyHists, none, none⟩ (cs "hi") ⟨Tier.normal, 1/2, cs "r"⟩
    (DispatchOutcome.ok (cs "a")) Tier.fast (by decide)

/-! ### The Gaussian temperature shaper

`apply_gaussian_temperature` of `smart_router.py` (the `web_ui.py` copy is
textually identical).  Floating-point arithmetic is idealised over the real
numbers.
-/

/-- `TEMP_MEAN`. -/
noncomputable def TEMP_MEAN : ℝ := 0.7

/-- `TEMP_SIGMA`. -/
noncomputable def TEMP_SIGMA : ℝ := 0.15

/-- `gaussian_weight = math.exp(-(distance_from_mean**2) / (2 * TEMP_SIGMA**2))`
with `distance_from_mean = abs(base_temp - TEMP_MEAN)`. -/
noncomputable def gaussian_weight (base_temp : ℝ) : ℝ :=
  Real.exp (-(|base_temp - TEMP_MEAN| ^ 2) / (2 * TEMP_SIGMA ^ 2))

/-- `adjusted_temp = base_temp * gaussian_weight + TEMP_MEAN * (1 - gaussian_weight)`. -/
noncomputable def adjusted_temp (base_temp : ℝ) : ℝ :=
  base_temp * gaussian_weight base_temp +
    TEMP_MEAN * (1 - gaussian_weight base_temp)

/-- `apply_gaussian_temperature`: the blended value clamped to `[0, 1]`
(`max(0.0, min(1.0, adjusted_temp))`). -/
noncomputable def apply_gaussian_temperature (base_temp : ℝ) : ℝ :=
  max 0 (min 1 (adjusted_temp base_temp))

/-! ### JSON extraction and parsing in `classify_with_ai`

`re.search(r"\x7b[^\x7d]+\x7d", result)` scans for the leftmost position
where an opening brace is followed by at least one non-closing-brace
character and then a closing brace; the match ends at the *first* closing
brace, with no regard for nesting.
-/

/-- Attempt the regex tail `[^\x7d]+\x7d` at a position just after an
opening brace: the maximal run of non-`\x7d` characters (which must be
nonempty) followed by a `\x7d`. -/
def braceTry (rest : List Char) : Option (List Char) :=
  let run := rest.takeWhile (fun c => !(c = '\x7d'))
  if run.isEmpty then none
  else
    match rest.drop run.length with
    | '\x7d' :: _ => some (run ++ ['\x7d'])
    | _ => none

/-- The substring `re.search(r"\x7b[^\x7d]+\x7d", s)` would report
(`None` when there is no match). -/
def jsonExtract : List Char → Option (List Char)
  | [] => none
  | c :: rest =>
    if c = '\x7b' then
      match braceTry rest with
      | some m => some ('\x7b' :: m)
      | none => jsonExtract rest
    else jsonExtract rest

/-- Modelled from the spec: consume characters after an opening brace until
the brace that closes it, tracking nesting depth. -/
def balancedBody : List Char → Nat → Option (List Char)
  | [], _ => none
  | c :: r, d =>
    if c = '\x7d' then
      if d = 0 then some [c]
      else (fun b => c :: b) <$> balancedBody r (d - 1)
    else if c = '\x7b' then (fun b => c :: b) <$> balancedBody r (d + 1)
    else (fun b => c :: b) <$> balancedBody r d

/-- Modelled from the spec (§4.3 "extract the first balanced `...`
substring"): the leftmost substring that starts at an opening brace and
extends to its matching closing brace. -/
def firstBalancedBraceSpec : List Char → Option (List Char)
  | [] => none
  | c :: rest =>
    if c = '\x7b' then
      match balancedBody rest 0 with
      | some b => some ('\x7b' :: b)
      | none => firstBalancedBraceSpec rest
    else firstBalancedBraceSpec rest

/-- A parsed JSON value (`json.loads` output). -/
inductive JValue
  | null
  | bool (b : Bool)
  | num (q : ℚ)
  | str (s : List Char)
  | arr (elems : List JValue)
  | obj (members : List (List Char × JValue))

/-- JSON whitespace. -/
def jsonWs (c : Char) : Bool :=
  c = ' ' || c = '\t' || c = '\n' || c = '\r'

/-- Skip JSON whitespace. -/
def skipWs (s : List Char) : List Char := s.dropWhile jsonWs

/-- Value of a hexadecimal digit. -/
def hexVal (c : Char) : Option Nat :=
  if c.isDigit then some (c.toNat - 48)
  else if 'a' ≤ c ∧ c ≤ 'f' then some (c.toNat - 87)
  else if 'A' ≤ c ∧ c ≤ 'F' then some (c.toNat - 55)
  else none

/-- Numeric value of a digit run. -/
def digitsToNat (ds : List Char) : Nat :=
  List.foldl (fun acc c => acc * 10 + (c.toNat - 48)) 0 ds

/-- Body of a JSON string after the opening quote; returns the decoded
characters and the remainder after the closing quote.  Raw control
characters are rejected; `\uXXXX` escapes are decoded without surrogate
pairing. -/
def parseStrChars : Nat → List Char → Option (List Char × List Char)
  | 0, _ => none
  | _, [] => none
  | fuel + 1, c :: rest =>
    if c = '"' then some ([], rest)
    else if c = '\\' then
      match rest with
      | [] => none
      | e :: rest2 =>
        let dec : Option Char :=
          if e = '"' then some '"'
          else if e = '\\' then some '\\'
          else if e = '/' then some '/'
          else if e = 'b' then some '\x08'
          else if e = 'f' then some '\x0c'
          else if e = 'n' then some '\n'
          else if e = 'r' then some '\r'
          else if e = 't' then some '\t'
          else none
        match dec with
        | some d =>
          (fun p => (d :: p.1, p.2)) <$> parseStrChars fuel rest2
        | none =>
          if e = 'u' then
            match rest2 with
            | h1 :: h2 :: h3 :: h4 :: rest3 =>
              match hexVal h1, hexVal h2, hexVal h3, hexVal h4 with
              | some a, some b, some c2, some d2 =>
                (fun p => (Char.ofNat (((a * 16 + b) * 16 + c2) * 16 + d2)
                    :: p.1, p.2)) <$> parseStrChars fuel rest3
              | _, _, _, _ => none
            | _ => none
          else none
    else if c.toNat < 32 then none
    else (fun p => (c :: p.1, p.2)) <$> parseStrChars fuel rest

/-- Optional exponent part of a JSON number. -/
def parseExp (s : List Char) : Option (Int × List Char) :=
  match s with
  | 'e' :: t =>
    let signed : Int × List Char :=
      match t with
      | '+' :: u => (1, u)
      | '-' :: u => (-1, u)
      | _ => (1, t)
    let ds := signed.2.takeWhile Char.isDigit
    if ds.isEmpty then none
    else some (signed.1 * (digitsToNat ds : Int), signed.2.drop ds.length)
  | 'E' :: t =>
    let signed : Int × List Char :=
      match t with
      | '+' :: u => (1, u)
      | '-' :: u => (-1, u)
      | _ => (1, t)
    let ds := signed.2.takeWhile Char.isDigit
    if ds.isEmpty then none
    else some (signed.1 * (digitsToNat ds : Int), signed.2.drop ds.length)
  | _ => some (0, s)

/-- A JSON number (sign, integer part, optional fraction, optional
exponent).  Slightly more permissive than `json.loads` about leading
zeros, which does not affect any fact proved below. -/
def parseNum (s : List Char) : Option (ℚ × List Char) :=
  let signed : ℚ × List Char :=
    match s with
    | '-' :: t => (-1, t)
    | _ => (1, s)
  let ip := signed.2.takeWhile Char.isDigit
  if ip.isEmpty then none
  else
    let s2 := signed.2.drop ip.length
    let intVal : ℚ := (digitsToNat ip : ℚ)
    let withFrac : Option (ℚ × List Char) :=
      match s2 with
      | '.' :: t =>
        let fp := t.takeWhile Char.isDigit
        if fp.isEmpty then none
        else some (intVal + (digitsToNat fp : ℚ) / ((10 : ℚ) ^ fp.length),
          t.drop fp.length)
      | _ => some (intVal, s2)
    match withFrac with
    | none => none
    | some (v, s3) =>
      match parseExp s3 with
      | none => none
      | some (e, s4) => some (signed.1 * v * (10 : ℚ) ^ e, s4)

mutual

/-- A JSON value, by recursion on fuel. -/
def parseVal : Nat → List Char → Option (JValue × List Char)
  | 0, _ => none
  | fuel + 1, s =>
    match skipWs s with
    | [] => none
    | '"' :: rest =>
      (fun p => (JValue.str p.1, p.2)) <$> parseStrChars (rest.length + 1) rest
    | '\x7b' :: rest => parseObjBody fuel rest
    | '[' :: rest => parseArrBody fuel rest
    | c :: rest =>
      if (cs "true").isPrefixOf (c :: rest) then
        some (JValue.bool true, (c :: rest).drop 4)
      else if (cs "false").isPrefixOf (c :: rest) then
        some (JValue.bool false, (c :: rest).drop 5)
      else if (cs "null").isPrefixOf (c :: rest) then
        some (JValue.null, (c :: rest).drop 4)
      else (fun p => (JValue.num p.1, p.2)) <$> parseNum (c :: rest)

/-- Array elements after `[`. -/
def parseArrBody : Nat → List Char → Option (JValue × List Char)
  | 0, _ => none
  | fuel + 1, s =>
    match skipWs s with
    | ']' :: rest => some (JValue.arr [], rest)
    | s' =>
      match parseVal fuel s' with
      | none => none
      | some (v, rest) =>
        match parseArrTail fuel rest with
        | none => none
        | some (vs, rest2) => some (JValue.arr (v :: vs), rest2)

/-- Array continuation: `,` value ... or `]`. -/
def parseArrTail : Nat → List Char → Option (List JValue × List Char)
  | 0, _ => none
  | fuel + 1, s =>
    match skipWs s with
    | ']' :: rest => some ([], rest)
    | ',' :: rest =>
      match parseVal fuel rest with
      | none => none
      | some (v, rest2) =>
        match parseArrTail fuel rest2 with
        | none => none
        | some (vs, rest3) => some (v :: vs, rest3)
    | _ => none

/-- Object members after the opening brace. -/
def parseObjBody : Nat → List Char → Option (JValue × List Char)
  | 0, _ => none
  | fuel + 1, s =>
    match skipWs s with
    | '\x7d' :: rest => some (JValue.obj [], rest)
    | s' =>
      match parseMember fuel s' with
      | none => none
      | some (kv, rest) =>
        match parseObjTail fuel rest with
        | none => none
        | some (kvs, rest2) => some (JValue.obj (kv :: kvs), rest2)

/-- One `"key": value` member. -/
def parseMember : Nat → List Char → Option ((List Char × JValue) × List Char)
  | 0, _ => none
  | fuel + 1, s =>
    match skipWs s with
    | '"' :: rest =>
      match parseStrChars (rest.length + 1) rest with
      | none => none
      | some (k, rest2) =>
        match skipWs rest2 with
        | ':' :: rest3 =>
          match parseVal fuel rest3 with
          | none => none
          | some (v, rest4) => some ((k, v), rest4)
        | _ => none
    | _ => none

/-- Object continuation: `,` member ... or the closing brace. -/
def parseObjTail : Nat → List Char →
    Option (List (List Char × JValue) × List Char)
  | 0, _ => none
  | fuel + 1, s =>
    match skipWs s with
    | '\x7d' :: rest => some ([], rest)
    | ',' :: rest =>
      match parseMember fuel rest with
      | none => none
      | some (kv, rest2) =>
        match parseObjTail fuel rest2 with
        | none => none
        | some (kvs, rest3) => some (kv :: kvs, rest3)
    | _ => none

end

/-- `json.loads`: parse a complete document; trailing garbage is an
error.  Fails with `none` where `json.loads` raises `JSONDecodeError`. -/
def jsonLoads (s : List Char) : Option JValue :=
  match parseVal (2 * s.length + 4) s with
  | none => none
  | some (v, rest) => if (skipWs rest).isEmpty then some v else none

/-! ### The model-assisted classifier

Dynamic coercion semantics of the validation code: `.lower()` on a
non-string raises `AttributeError`; `float(...)` raises `ValueError` on an
unparsable string and `TypeError` on `None` / lists / objects; `dict.get`
on a non-dict raises `AttributeError`.  `smart_router.py` catches only
`(json.JSONDecodeError, requests.RequestException, ValueError)`;
`web_ui.py` catches `Exception`.
-/

/-- The Python exception classes that can arise in the classification
pipeline after a successful backend call. -/
inductive PyExc
  | attributeError
  | typeError
  | valueError
  | jsonDecodeError
deriving DecidableEq, Repr

/-- A failure of the backend call itself
(`requests.RequestException`). -/
inductive BackendFailure
  | requestException
deriving DecidableEq, Repr

/-- `dict.get(key, default)` with Python's later-key-wins duplicate
handling. -/
def dictLookup (members : List (List Char × JValue)) (key : List Char) :
    Option JValue :=
  List.foldl (fun acc kv => if kv.1 = key then some kv.2 else acc)
    none members

/-- `parsed.get(key, dflt)`; raises `AttributeError` when the receiver is
not a dict. -/
def pyGet (v : JValue) (key : List Char) (dflt : JValue) :
    Except PyExc JValue :=
  match v with
  | JValue.obj ms => Except.ok ((dictLookup ms key).getD dflt)
  | _ => Except.error PyExc.attributeError

/-- `x.lower()`: defined on strings only. -/
def pyLowerMeth : JValue → Except PyExc (List Char)
  | JValue.str s => Except.ok (pyLower s)
  | _ => Except.error PyExc.attributeError

/-- Python's `float(str)` on the usual numeric literals (sign, digits,
optional point, optional exponent, surrounding whitespace).  The `inf` and
`nan` spellings are not modelled; no fact below depends on them. -/
def pyFloatOfChars (s : List Char) : Option ℚ :=
  let t := pyStrip s
  let signed : ℚ × List Char :=
    match t with
    | '-' :: u => (-1, u)
    | '+' :: u => (1, u)
    | _ => (1, t)
  let ip := signed.2.takeWhile Char.isDigit
  let s2 := signed.2.drop ip.length
  let withFrac : Option (ℚ × List Char) :=
    match s2 with
    | '.' :: u =>
      let fp := u.takeWhile Char.isDigit
      if ip.isEmpty && fp.isEmpty then none
      else some ((digitsToNat ip : ℚ) +
        (digitsToNat fp : ℚ) / ((10 : ℚ) ^ fp.length), u.drop fp.length)
    | _ =>
      if ip.isEmpty then none else some ((digitsToNat ip : ℚ), s2)
  match withFrac with
  | none => none
  | some (v, s3) =>
    match parseExp s3 with
    | none => none
    | some (e, s4) =>
      if s4.isEmpty then some (signed.1 * v * (10 : ℚ) ^ e) else none

/-- `float(x)` on a parsed JSON value. -/
def pyFloat : JValue → Except PyExc ℚ
  | JValue.num q => Except.ok q
  | JValue.bool b => Except.ok (if b then 1 else 0)
  | JValue.str s =>
    match pyFloatOfChars s with
    | some q => Except.ok q
    | none => Except.error PyExc.valueError
  | _ => Except.error PyExc.typeError

/-- The normalisation `if difficulty not in ["fast", "normal", "strong"]:
difficulty = "normal"`, combined with the loop's tier selection. -/
def tierOfLowered (s : List Char) : Tier :=
  if s = cs "fast" then Tier.fast
  else if s = cs "normal" then Tier.normal
  else if s = cs "strong" then Tier.strong
  else Tier.normal

/-- The parsing and validation steps of `classify_with_ai` applied to the
raw router-model output: `Except.ok none` means no JSON object was found
(falling through to the fallback), `Except.ok (some ...)` carries the
normalised difficulty, the clamped pre-shaping temperature and the raw
reason value, and `Except.error` is a raised Python exception. -/
def classify_pipeline (result : List Char) :
    Except PyExc (Option (Tier × ℚ × JValue)) :=
  match jsonExtract result with
  | none => Except.ok none
  | some sub =>
    match jsonLoads sub with
    | none => Except.error PyExc.jsonDecodeError
    | some parsed =>
      match pyGet parsed (cs "difficulty") (JValue.str (cs "normal")) with
      | Except.error e => Except.error e
      | Except.ok dv =>
        match pyLowerMeth dv with
        | Except.error e => Except.error e
        | Except.ok dl =>
          match pyGet parsed (cs "temperature") (JValue.num (0.7 : ℚ)) with
          | Except.error e => Except.error e
          | Except.ok tv =>
            match pyFloat tv with
            | Except.error e => Except.error e
            | Except.ok bt =>
              match pyGet parsed (cs "reason")
                  (JValue.str (cs "AI classification")) with
              | Except.error e => Except.error e
              | Except.ok rv =>
                Except.ok (some (tierOfLowered dl, max 0 (min 1 bt), rv))

/-- Result of `classify_with_ai` before the temperature shaping is applied:
a classification, the fallback, or an uncaught exception. -/
inductive AIResult
  | classified (difficulty : Tier) (base : ℚ) (reason : JValue)
  | fallback
  | exc (e : PyExc)

/-- The `smart_router.py` `classify_with_ai` control flow: a backend
failure, a missing JSON object, a `JSONDecodeError` and a `ValueError` all
produce the fallback; any other exception escapes. -/
def classify_with_ai_run (backend : Except BackendFailure (List Char)) :
    AIResult :=
  match backend with
  | Except.error _ => AIResult.fallback
  | Except.ok result =>
    match classify_pipeline result with
    | Except.ok (some (d, t, r)) => AIResult.classified d t r
    | Except.ok none => AIResult.fallback
    | Except.error e =>
      if e = PyExc.jsonDecodeError || e = PyExc.valueError then
        AIResult.fallback
      else AIResult.exc e

/-- The `web_ui.py` `classify_with_ai` control flow: identical pipeline,
but `except Exception` turns every exception into the fallback. -/
def classify_with_ai_web_run (backend : Except BackendFailure (List Char)) :
    AIResult :=
  match backend with
  | Except.error _ => AIResult.fallback
  | Except.ok result =>
    match classify_pipeline result with
    | Except.ok (some (d, t, r)) => AIResult.classified d t r
    | _ => AIResult.fallback

/-- The classification dictionary both versions return. -/
structure AIDecision where
  difficulty : Tier
  temperature : ℝ
  reason : JValue

/-- The `smart_router.py` fallback decision. -/
noncomputable def srFallback : AIDecision :=
  ⟨Tier.normal, 0.7, JValue.str (cs "Fallback classification")⟩

/-- The `web_ui.py` fallback decision. -/
noncomputable def webFallback : AIDecision :=
  ⟨Tier.normal, 0.7, JValue.str (cs "Fallback")⟩

/-- `classify_with_ai` of `smart_router.py`: an `Except.error` is an
exception propagating to the caller. -/
noncomputable def classify_with_ai_sr
    (backend : Except BackendFailure (List Char)) :
    Except PyExc AIDecision :=
  match classify_with_ai_run backend with
  | AIResult.classified d t r =>
    Except.ok ⟨d, apply_gaussian_temperature (t : ℝ), r⟩
  | AIResult.fallback => Except.ok srFallback
  | AIResult.exc e => Except.error e

/-- `classify_with_ai` of `web_ui.py`: total, never raises. -/
noncomputable def classify_with_ai_web
    (backend : Except BackendFailure (List Char)) : AIDecision :=
  match classify_with_ai_web_run backend with
  | AIResult.classified d t r =>
    ⟨d, apply_gaussian_temperature (t : ℝ), r⟩
  | _ => webFallback

/-- Router output refuting claim C1: a JSON object whose `difficulty` is a
number, so `.lower()` raises `AttributeError`, which `smart_router.py`'s
`except` clause does not catch. -/
def c1query : List Char := cs "\x7b\"difficulty\": 1\x7d"

/-- Claim C1, counterexample: on this backend output the terminal smart
router's classifier propagates an `AttributeError` instead of returning the
fallback decision. -/
theorem C1_counterexample :
    classify_with_ai_sr (Except.ok c1query) =
      Except.error PyExc.attributeError := by
  have h : classify_with_ai_run (Except.ok c1query) =
      AIResult.exc PyExc.attributeError := rfl
  simp [classify_with_ai_sr, h]

/-- Claim C1 (corrected): the web UI classifier never raises; the terminal
smart router's classifier returns the fallback decision on a backend
request failure, on a missing JSON object and on a JSON decode failure
(and, by the same `except` clause, on `ValueError`), but coercion failures
raising `AttributeError` or `TypeError` — a non-string `difficulty`, a
`temperature` that is `null`, a list or an object — propagate to the
caller; these are the only exceptions that can escape, and exactly on
those inputs the web UI version returns its fallback. -/
theorem C1_amended :
    (classify_with_ai_sr (Except.error BackendFailure.requestException) =
      Except.ok srFallback) ∧
    (∀ s, jsonExtract s = none →
      classify_with_ai_sr (Except.ok s) = Except.ok srFallback) ∧
    (∀ s sub, jsonExtract s = some sub → jsonLoads sub = none →
      classify_with_ai_sr (Except.ok s) = Except.ok srFallback) ∧
    (∀ b e, classify_with_ai_sr b = Except.error e →
      e = PyExc.attributeError ∨ e = PyExc.typeError) ∧
    (∀ b e, classify_with_ai_sr b = Except.error e →
      classify_with_ai_web b = webFallback) := by
  refine ⟨rfl, ?_, ?_, ?_, ?_⟩
  · intro s h
    simp [classify_with_ai_sr, classify_with_ai_run, classify_pipeline, h]
  · intro s sub h1 h2
    simp [classify_with_ai_sr, classify_with_ai_run, classify_pipeline,
      h1, h2]
  · intro b e h
    cases b with
    | error f => simp [classify_with_ai_sr, classify_with_ai_run] at h
    | ok result =>
      rw [classify_with_ai_sr] at h
      cases hp : classify_pipeline result with
      | ok v =>
        cases v <;>
          simp [classify_with_ai_run, hp] at h
      | error e0 =>
        by_cases hc : e0 = PyExc.jsonDecodeError ∨ e0 = PyExc.valueError
        · have : classify_with_ai_run (Except.ok result) =
              AIResult.fallback := by
            rcases hc with hc | hc <;>
              simp [classify_with_ai_run, hp, hc]
          rw [this] at h
          simp at h
        · push_neg at hc
          have : classify_with_ai_run (Except.ok result) =
              AIResult.exc e0 := by
            simp [classify_with_ai_run, hp, hc.1, hc.2]
          rw [this] at h
          simp at h
          cases e0 with
          | attributeError => exact Or.inl h.symm
          | typeError => exact Or.inr h.symm
          | valueError => exact absurd rfl hc.2
          | jsonDecodeError => exact absurd rfl hc.1
  · intro b e h
    cases b with
    | error f => simp [classify_with_ai_sr, classify_with_ai_run] at h
    | ok result =>
      rw [classify_with_ai_sr] at h
      cases hp : classify_pipeline result with
      | ok v =>
        cases v <;> simp [classify_with_ai_run, hp] at h
      | error e0 =>
        simp [classify_with_ai_web, classify_with_ai_web_run, hp]

/-- A router output with no brace-delimited object at all. -/
def c1prose : List Char := cs "no json here"

/-- Witness for C1: the missing-object clause at a concrete output, and the
web fallback at the very output on which the terminal classifier raises. -/
theorem C1_witness :
    (jsonExtract c1prose = none ∧
      classify_with_ai_sr (Except.ok c1prose) = Except.ok srFallback) ∧
    classify_with_ai_web (Except.ok c1query) = webFallback :=
  ⟨⟨by decide, C1_amended.2.1 c1prose (by decide)⟩,
    C1_amended.2.2.2.2 (Except.ok c1query) PyExc.attributeError
      (by
        have h : classify_with_ai_run (Except.ok c1query) =
            AIResult.exc PyExc.attributeError := rfl
        simp [classify_with_ai_sr, h])⟩

/-- Router output refuting claim C7: a JSON object containing a nested
object. -/
def c7raw : List Char := cs "\x7b\"a\": \x7b\"b\": 1\x7d\x7d"

/-- What the regex actually extracts from `c7raw`: truncated at the first
closing brace. -/
def c7trunc : List Char := cs "\x7b\"a\": \x7b\"b\": 1\x7d"

/-- Claim C7, counterexample: on a nested object the extraction step does
not select the first balanced brace substring — it truncates at the first
closing brace, and the truncated text then fails to parse. -/
theorem C7_counterexample :
    firstBalancedBraceSpec c7raw = some c7raw ∧
    jsonExtract c7raw = some c7trunc ∧
    jsonExtract c7raw ≠ firstBalancedBraceSpec c7raw ∧
    jsonLoads c7trunc = none :=
  ⟨rfl, rfl, by decide, rfl⟩

lemma takeWhile_stops (body post : List Char) (hb2 : '\x7d' ∉ body) :
    (body ++ '\x7d' :: post).takeWhile (fun c => !(c = '\x7d')) = body := by
  induction body with
  | nil => simp
  | cons b bs ih =>
    have hb : ¬(b = '\x7d') := fun h => hb2 (by simp [h])
    have ih' := ih (fun h => hb2 (List.mem_cons_of_mem _ h))
    simp only [List.cons_append, List.takeWhile_cons, hb, decide_False,
      Bool.not_false, if_true, ih']

lemma braceTry_exact (body post : List Char) (hne : body ≠ [])
    (hb2 : '\x7d' ∉ body) :
    braceTry (body ++ '\x7d' :: post) = some (body ++ ['\x7d']) := by
  unfold braceTry
  rw [takeWhile_stops body post hb2]
  rw [if_neg (by simpa using hne)]
  rw [List.drop_left]
  rfl

/-- Claim C7 (corrected): the extraction selects the leftmost substring of
the form open-brace, one or more characters none of which is a closing
brace, closing brace.  For a *flat* object — no nested braces — embedded
in brace-free prose this is the object itself; claim C7's balanced-brace
reading fails exactly on nested objects (see the counterexample). -/
theorem C7_amended (pre body post : List Char)
    (hpre : '\x7b' ∉ pre) (hne : body ≠ [])
    (hb1 : '\x7b' ∉ body) (hb2 : '\x7d' ∉ body) :
    jsonExtract (pre ++ '\x7b' :: (body ++ '\x7d' :: post)) =
      some ('\x7b' :: (body ++ ['\x7d'])) := by
  induction pre with
  | nil =>
    rw [List.nil_append]
    show jsonExtract ('\x7b' :: (body ++ '\x7d' :: post)) = _
    rw [jsonExtract]
    rw [if_pos rfl, braceTry_exact body post hne hb2]
  | cons c pr ih =>
    have hc : ¬(c = '\x7b') := fun h => hpre (by simp [h])
    rw [List.cons_append]
    rw [jsonExtract]
    rw [if_neg hc]
    exact ih (fun h => hpre (List.mem_cons_of_mem _ h))

/-- Witness for C7: a flat object inside prose, extracted intact. -/
theorem C7_witness :
    jsonExtract
        (cs "noise " ++ '\x7b' :: (cs "\"difficulty\": \"fast\"" ++
          '\x7d' :: cs " tail")) =
      some ('\x7b' :: (cs "\"difficulty\": \"fast\"" ++ ['\x7d'])) :=
  C7_amended (cs "noise ") (cs "\"difficulty\": \"fast\"") (cs " tail")
    (by decide) (by decide) (by decide) (by decide)

/-! ### Analytic facts about the Gaussian shaper -/

lemma gaussian_weight_pos (t : ℝ) : 0 < gaussian_weight t :=
  Real.exp_pos _

lemma gaussian_weight_le_one (t : ℝ) : gaussian_weight t ≤ 1 := by
  rw [gaussian_weight, show (1 : ℝ) = Real.exp 0 from Real.exp_zero.symm]
  apply Real.exp_le_exp.mpr
  have h1 : (0 : ℝ) ≤ |t - TEMP_MEAN| ^ 2 := sq_nonneg _
  have h2 : (0 : ℝ) < 2 * TEMP_SIGMA ^ 2 := by rw [TEMP_SIGMA]; norm_num
  exact div_nonpos_iff.mpr (Or.inr ⟨neg_nonpos.mpr h1, h2.le⟩)

/-- The absolute pull of the shaper is at most `σ·exp(-1/2)`, reached at
distance `σ` from the mean: with `a = |x|` and `u = a²/(2σ²)`, AM-GM gives
`a/σ ≤ u + 1/2`, and `exp y ≥ y + 1` turns this into
`a·exp(-u) ≤ σ·exp(-1/2)`. -/
lemma weight_mul_bound (x : ℝ) :
    |x| * Real.exp (-(|x| ^ 2) / (2 * TEMP_SIGMA ^ 2)) ≤
      TEMP_SIGMA * Real.exp (-(1 / 2) : ℝ) := by
  have hs2 : 2 * TEMP_SIGMA ^ 2 = (9 : ℝ) / 200 := by
    rw [TEMP_SIGMA]; norm_num
  have hsv : TEMP_SIGMA = (3 : ℝ) / 20 := by rw [TEMP_SIGMA]; norm_num
  rw [hs2, hsv]
  have ha0 : 0 ≤ |x| := abs_nonneg x
  set a := |x| with ha
  set u : ℝ := a ^ 2 * (200 / 9) with hu
  have hexp : -(a ^ 2) / ((9 : ℝ) / 200) = -u := by rw [hu]; ring
  rw [hexp]
  have h1 : a * (20 / 3) ≤ u + 1 / 2 := by
    rw [hu]
    nlinarith [sq_nonneg (a - 3 / 20)]
  have h2 : u + 1 / 2 ≤ Real.exp (u - 1 / 2) := by
    have := Real.add_one_le_exp (u - 1 / 2)
    linarith
  have h3 : a ≤ 3 / 20 * Real.exp (u - 1 / 2) := by
    have h12 := le_trans h1 h2
    linarith
  have h4 : Real.exp (u - 1 / 2) * Real.exp (-u) = Real.exp (-(1 / 2) : ℝ) := by
    rw [← Real.exp_add]
    ring_nf
  have h5 : 0 < Real.exp (-u) := Real.exp_pos _
  calc a * Real.exp (-u)
      ≤ (3 / 20 * Real.exp (u - 1 / 2)) * Real.exp (-u) := by
        exact mul_le_mul_of_nonneg_right h3 h5.le
    _ = 3 / 20 * (Real.exp (u - 1 / 2) * Real.exp (-u)) := by ring
    _ = 3 / 20 * Real.exp (-(1 / 2) : ℝ) := by rw [h4]

/-- The blended value sits within `σ·exp(-1/2)` of the mean. -/
lemma adjusted_close (t : ℝ) :
    |adjusted_temp t - TEMP_MEAN| ≤ TEMP_SIGMA * Real.exp (-(1 / 2) : ℝ) := by
  have h : adjusted_temp t - TEMP_MEAN = (t - TEMP_MEAN) * gaussian_weight t := by
    unfold adjusted_temp; ring
  rw [h, abs_mul, abs_of_pos (gaussian_weight_pos t)]
  exact weight_mul_bound (t - TEMP_MEAN)

/-- Numerically, `σ·exp(-1/2) < 1/10` (since `exp(1/2) > 3/2`). -/
lemma bound_lt_tenth : TEMP_SIGMA * Real.exp (-(1 / 2) : ℝ) < 1 / 10 := by
  have h32 : (3 : ℝ) / 2 < Real.exp (1 / 2) := by
    have := Real.add_one_lt_exp (show (1 : ℝ) / 2 ≠ 0 by norm_num)
    linarith
  have hinv : Real.exp (-(1 / 2) : ℝ) < 2 / 3 := by
    rw [Real.exp_neg, show (2 : ℝ) / 3 = ((3 : ℝ) / 2)⁻¹ by norm_num]
    exact inv_lt_inv_of_lt (by norm_num) h32
  have hpos : 0 < Real.exp (-(1 / 2) : ℝ) := Real.exp_pos _
  rw [TEMP_SIGMA]
  nlinarith

/-- The final clamp of the shaper never fires: the blended value is already
strictly inside `(0.6, 0.8) ⊆ [0, 1]`. -/
lemma clamp_id (t : ℝ) : apply_gaussian_temperature t = adjusted_temp t := by
  have hm : TEMP_MEAN = (0.7 : ℝ) := rfl
  have habs := abs_le.mp (adjusted_close t)
  have hb := bound_lt_tenth
  rw [hm] at habs
  have h1 : adjusted_temp t ≤ 1 := by linarith [habs.2]
  have h2 : (0 : ℝ) ≤ adjusted_temp t := by linarith [habs.1]
  rw [apply_gaussian_temperature, min_eq_right h1, max_eq_right h2]

/-- Claim C8: the shaper fixes the center exactly (`shape 0.7 = 0.7`) and
is symmetric about it: `shape (0.7 - d) + shape (0.7 + d) = 1.4` for every
real `d` (the clamp never interferes, since the blend stays within
`σ·exp(-1/2) < 0.1` of the center). -/
theorem C8_shaper :
    apply_gaussian_temperature 0.7 = 0.7 ∧
    ∀ d : ℝ, apply_gaussian_temperature (0.7 - d) +
        apply_gaussian_temperature (0.7 + d) = 1.4 := by
  have hm : TEMP_MEAN = (0.7 : ℝ) := rfl
  constructor
  · rw [clamp_id]
    unfold adjusted_temp
    rw [hm]
    ring
  · intro d
    rw [clamp_id, clamp_id]
    have hw : gaussian_weight (0.7 - d) = gaussian_weight (0.7 + d) := by
      unfold gaussian_weight
      rw [hm, show (0.7 : ℝ) - d - 0.7 = -d from by ring,
        show (0.7 : ℝ) + d - 0.7 = d from by ring, abs_neg]
    unfold adjusted_temp
    rw [hw, hm]
    ring

/-- Claim C10: for every real input the shaped temperature lies between the
input and 0.7, within the band `[0.7 - 0.15·exp(-1/2), 0.7 + 0.15·exp(-1/2)]`,
hence strictly inside `(0.6, 0.8)`; and the final clamp never changes the
blended value. -/
theorem C10_band (t : ℝ) :
    (min t 0.7 ≤ apply_gaussian_temperature t ∧
      apply_gaussian_temperature t ≤ max t 0.7) ∧
    (0.7 - 0.15 * Real.exp (-(1 / 2) : ℝ) ≤ apply_gaussian_temperature t ∧
      apply_gaussian_temperature t ≤ 0.7 + 0.15 * Real.exp (-(1 / 2) : ℝ)) ∧
    (0.6 < apply_gaussian_temperature t ∧
      apply_gaussian_temperature t < 0.8) ∧
    max 0 (min 1 (adjusted_temp t)) = adjusted_temp t := by
  have hm : TEMP_MEAN = (0.7 : ℝ) := rfl
  have hs : TEMP_SIGMA = (0.15 : ℝ) := rfl
  have hcl := clamp_id t
  have hclose := adjusted_close t
  rw [hm, hs] at hclose
  have habs := abs_le.mp hclose
  have hb := bound_lt_tenth
  rw [hs] at hb
  have wpos := gaussian_weight_pos t
  have wle := gaussian_weight_le_one t
  have hrepr : adjusted_temp t = 0.7 + (t - 0.7) * gaussian_weight t := by
    unfold adjusted_temp
    rw [hm]
    ring
  refine ⟨?_, ⟨?_, ?_⟩, ⟨?_, ?_⟩, ?_⟩
  · rw [hcl]
    rcases le_total t 0.7 with h | h
    · rw [min_eq_left h, max_eq_right h]
      constructor <;> nlinarith
    · rw [min_eq_right h, max_eq_left h]
      constructor <;> nlinarith
  · rw [hcl]; linarith [habs.1]
  · rw [hcl]; linarith [habs.2]
  · rw [hcl]; linarith [habs.1]
  · rw [hcl]; linarith [habs.2]
  · exact hcl
